import Mathlib

/-!
Verification of the address plausibility / geographic-consistency validator
implemented in `src/check/address.py`, `src/check/address_check.py` and
`src/check/address_score.py`.

The Python code is shallowly embedded: pure string manipulation becomes
computable Lean functions over `String` / `List Char`; the external
geonames dataset becomes an explicit `Gazetteer` parameter; the external
geocoding HTTP response becomes an explicit `Option (List QueryResult)`
parameter (`none` models a transport or decoding failure raised inside the
guarded block); Python exceptions that can escape a function become
`Except PyErr`; `float` arithmetic is modelled over the reals (string
parsing produces exact rationals, which are then coerced; floating-point
rounding is not modelled, and none of the verified properties depend on
it).  Character classification (`str.lower`, `str.isdigit`, `\w`,
whitespace) is modelled at ASCII precision; the Python originals are
Unicode-aware, but every property proved below is insensitive to the
classification of non-ASCII characters.
-/

/-! ## Python string primitives (ASCII model) -/

/-- ASCII whitespace recognised by Python's `str.strip` / `str.split`. -/
def is_py_ws (c : Char) : Bool :=
  c == ' ' || c == '\t' || c == '\n' || c == '\r' || c == Char.ofNat 11 || c == Char.ofNat 12

/-- Drop leading and trailing whitespace characters (model of `str.strip()`). -/
def strip_chars (l : List Char) : List Char :=
  ((l.dropWhile is_py_ws).reverse.dropWhile is_py_ws).reverse

/-- Model of Python `str.strip()`. -/
def py_strip (s : String) : String := String.mk (strip_chars s.toList)

/-- ASCII upper-to-lower case table. -/
def ASCII_UPPER_LOWER : List (Char × Char) :=
  [('A', 'a'), ('B', 'b'), ('C', 'c'), ('D', 'd'), ('E', 'e'), ('F', 'f'),
   ('G', 'g'), ('H', 'h'), ('I', 'i'), ('J', 'j'), ('K', 'k'), ('L', 'l'),
   ('M', 'm'), ('N', 'n'), ('O', 'o'), ('P', 'p'), ('Q', 'q'), ('R', 'r'),
   ('S', 's'), ('T', 't'), ('U', 'u'), ('V', 'v'), ('W', 'w'), ('X', 'x'),
   ('Y', 'y'), ('Z', 'z')]

/-- First-match association lookup on characters, defaulting to the key. -/
def assoc_char : List (Char × Char) → Char → Char
  | [], c => c
  | p :: rest, c => if c = p.1 then p.2 else assoc_char rest c

/-- Model of Python `str.lower()` on a single character (ASCII case map). -/
def py_char_lower (c : Char) : Char := assoc_char ASCII_UPPER_LOWER c

/-- Model of Python `str.lower()`. -/
def py_lower (s : String) : String := String.mk (s.toList.map py_char_lower)

/-- Accumulator-style splitter for `str.split()` (whitespace runs, no empties). -/
def ws_words_aux : List Char → List Char → List String
  | [], acc => if acc.isEmpty then [] else [String.mk acc.reverse]
  | c :: cs, acc =>
    if is_py_ws c then
      if acc.isEmpty then ws_words_aux cs []
      else String.mk acc.reverse :: ws_words_aux cs []
    else ws_words_aux cs (c :: acc)

/-- Model of Python `str.split()` with no argument. -/
def py_split_ws (s : String) : List String := ws_words_aux s.toList []

/-- Accumulator-style splitter for `str.split(",")` (empties kept). -/
def split_comma_aux : List Char → List Char → List String
  | [], acc => [String.mk acc.reverse]
  | c :: cs, acc =>
    if c = ',' then String.mk acc.reverse :: split_comma_aux cs []
    else split_comma_aux cs (c :: acc)

/-- Model of Python `str.split(",")`. -/
def py_split_comma (s : String) : List String := split_comma_aux s.toList []

/-- Does the first list occur as a prefix of the second (model of `str.startswith`)? -/
def starts_with_chars : List Char → List Char → Bool
  | [], _ => true
  | _ :: _, [] => false
  | a :: as, b :: bs => a == b && starts_with_chars as bs

/-- Does the first list occur as a contiguous sublist of the second? -/
def contains_sub : List Char → List Char → Bool
  | needle, [] => needle.isEmpty
  | needle, c :: rest => starts_with_chars needle (c :: rest) || contains_sub needle rest

/-- Model of Python's substring test `needle in hay`. -/
def py_in (needle hay : String) : Bool := contains_sub needle.toList hay.toList

/-- Accumulator-style extraction of maximal ASCII digit runs. -/
def digit_runs_aux : List Char → List Char → List String
  | [], acc => if acc.isEmpty then [] else [String.mk acc.reverse]
  | c :: cs, acc =>
    if c.isDigit then digit_runs_aux cs (c :: acc)
    else if acc.isEmpty then digit_runs_aux cs []
    else String.mk acc.reverse :: digit_runs_aux cs []

/-- Model of `re.findall(r"[0-9]+", s)`: the maximal runs of ASCII digits, in order. -/
def py_findall_digits (s : String) : List String := digit_runs_aux s.toList []

/-- Equality of the two lists viewed as finite sets (model of `set(a) == set(b)`). -/
def py_set_eq (a b : List String) : Bool :=
  a.all (fun x => b.contains x) && b.all (fun x => a.contains x)

/-- First-match association lookup (model of `dict` lookup; keys are distinct). -/
def dict_get : List (String × String) → String → Option String
  | [], _ => none
  | p :: rest, s => if s = p.1 then some p.2 else dict_get rest s

/-- Model of Python `d.get(key, default)`. -/
def dict_getD (m : List (String × String)) (s dflt : String) : String :=
  (dict_get m s).getD dflt

/-- The ASCII apostrophe character, as a string. -/
def APOS : String := String.mk [Char.ofNat 39]

/-! ## Country alias tables (`COUNTRY_MAPPING` in both modules) -/

/-- `COUNTRY_MAPPING` from `src/check/address.py`. -/
def COUNTRY_MAPPING : List (String × String) :=
  [("korea, south", "south korea"),
   ("korea, north", "north korea"),
   ("cote d ivoire", "ivory coast"),
   ("côte d" ++ APOS ++ "ivoire", "ivory coast"),
   ("cote d" ++ APOS ++ "ivoire", "ivory coast"),
   ("the gambia", "gambia"),
   ("netherlands", "the netherlands"),
   ("holland", "the netherlands"),
   ("congo, democratic republic of the", "democratic republic of the congo"),
   ("drc", "democratic republic of the congo"),
   ("congo, republic of the", "republic of the congo"),
   ("burma", "myanmar"),
   ("bonaire", "bonaire, saint eustatius and saba"),
   ("usa", "united states"),
   ("us", "united states"),
   ("united states of america", "united states"),
   ("uk", "united kingdom"),
   ("great britain", "united kingdom"),
   ("britain", "united kingdom"),
   ("uae", "united arab emirates"),
   ("u.s.a.", "united states"),
   ("u.s.", "united states"),
   ("u.k.", "united kingdom"),
   ("north macedonia, the republic of", "north macedonia"),
   ("palestine, state of", "palestinian territory"),
   ("palestinian", "palestinian territory")]

/-- `COUNTRY_MAPPING` from `src/check/address_check.py` (lacks the last three
entries of the `address.py` table). -/
def COUNTRY_MAPPING_CHK : List (String × String) :=
  [("korea, south", "south korea"),
   ("korea, north", "north korea"),
   ("cote d ivoire", "ivory coast"),
   ("côte d" ++ APOS ++ "ivoire", "ivory coast"),
   ("cote d" ++ APOS ++ "ivoire", "ivory coast"),
   ("the gambia", "gambia"),
   ("netherlands", "the netherlands"),
   ("holland", "the netherlands"),
   ("congo, democratic republic of the", "democratic republic of the congo"),
   ("drc", "democratic republic of the congo"),
   ("congo, republic of the", "republic of the congo"),
   ("burma", "myanmar"),
   ("bonaire", "bonaire, saint eustatius and saba"),
   ("usa", "united states"),
   ("us", "united states"),
   ("united states of america", "united states"),
   ("uk", "united kingdom"),
   ("great britain", "united kingdom"),
   ("britain", "united kingdom"),
   ("uae", "united arab emirates"),
   ("u.s.a.", "united states"),
   ("u.s.", "united states"),
   ("u.k.", "united kingdom")]

/-- Alias normalization as used at every call site of `address.py`:
`COUNTRY_MAPPING.get(s, s)`. -/
def normalize_country (s : String) : String := dict_getD COUNTRY_MAPPING s s

/-- Alias normalization against the `address_check.py` table. -/
def normalize_country_chk (s : String) : String := dict_getD COUNTRY_MAPPING_CHK s s

/-! ## Gazetteer (geonamescache model) and `city_in_country` -/

/-- A city record of the geonames dataset: its country code and its name. -/
structure GazCity where
  countrycode : String
  name : String

/-- The read-only geonames dataset: countries as `(code, name)` pairs in
iteration order, and the city records in iteration order. -/
structure Gazetteer where
  countries : List (String × String)
  cities : List GazCity

/-- `city_in_country` from `src/check/address.py` (identical in
`address_check.py`): find the code of the country whose name matches, then
scan that country's cities under the exact / first-word-prefix /
second-word-substring rules. -/
def city_in_country (gaz : Gazetteer) (city_name country_name : String) : Bool :=
  if city_name = "" ∨ country_name = "" then false
  else
    let city_lower := py_lower city_name
    let country_lower := py_lower country_name
    match gaz.countries.find? (fun cd => py_strip (py_lower cd.2) == py_strip country_lower) with
    | none => false
    | some cd =>
      let city_words := py_split_ws city_lower
      gaz.cities.any (fun c =>
        c.countrycode == cd.1 &&
        (py_strip (py_lower c.name) == py_strip city_lower
          || (decide (2 ≤ city_words.length) &&
              starts_with_chars (city_words.getD 0 "").toList (py_lower c.name).toList)
          || (decide (2 ≤ city_words.length) &&
              py_in (city_words.getD 1 "") (py_lower c.name))))

/-- The Western Sahara locality whitelist of `check_western_sahara_cities`. -/
def WESTERN_SAHARA_CITIES : List String :=
  ["laayoune", "dakhla", "boujdour", "es semara", "sahrawi", "tifariti", "aousserd"]

/-- `check_western_sahara_cities` from `src/check/address.py`. -/
def check_western_sahara_cities (generated_address : String) : Bool :=
  if generated_address = "" then false
  else WESTERN_SAHARA_CITIES.any (fun c => py_in c (py_lower generated_address))

/-! ## `extract_city_country` -/

/-- The city candidates generated from one comma segment: for each word
position, the word itself, then (for non-initial positions) the previous
word and this word joined by a single space.  An empty segment is skipped
(`continue` in the source). -/
def city_candidates_of_part (part : String) : List String :=
  if part = "" then []
  else
    let ws := py_split_ws part
    (List.range ws.length).flatMap (fun nw =>
      (ws.getD nw "") ::
        (if 0 < nw then [ws.getD (nw - 1) "" ++ " " ++ ws.getD nw ""] else []))

/-- All city candidates in scan order: segments right to left starting just
left of the `excl` country segment(s) (`for i in range(exclude_count + 1,
len(parts) + 1): parts[-i]`). -/
def candidate_list (parts : List String) (excl : Nat) : List String :=
  (List.range' (excl + 1) (parts.length - excl)).flatMap (fun i =>
    city_candidates_of_part (parts.getD (parts.length - i) ""))

/-- The inner search loop of `extract_city_country`: the first candidate that
contains no digit and passes `city_in_country` is returned with the
normalized country; otherwise the city is empty. -/
def search_city (gaz : Gazetteer) (parts : List String) (excl : Nat)
    (checking_name norm : String) : String × String :=
  match (candidate_list parts excl).find?
      (fun c => !(c.toList.any Char.isDigit) && city_in_country gaz c checking_name) with
  | some city => (city, norm)
  | none => ("", norm)

/-- `extract_city_country` from `src/check/address.py`.  The two-segment
country candidate is accepted only when its alias normalization changed the
raw string; the `norm ≠ ""` conjunct mirrors the source's later
`country_checking_name == ''` fallback to the single-segment candidate
(with the concrete alias table it never fires, since alias values are
non-empty). -/
def extract_city_country (gaz : Gazetteer) (address : String) (two_parts : Bool) :
    String × String :=
  if address = "" then ("", "")
  else
    let addr := py_lower address
    let parts := (py_split_comma addr).map py_strip
    if parts.length < 2 then ("", "")
    else
      let last_part := parts.getD (parts.length - 1) ""
      let single_norm := dict_getD COUNTRY_MAPPING last_part last_part
      let two_res : Option String :=
        if two_parts = true ∧ 2 ≤ parts.length then
          let raw := parts.getD (parts.length - 2) "" ++ ", " ++ last_part
          let norm := dict_getD COUNTRY_MAPPING raw raw
          if raw ≠ norm ∧ norm ≠ "" then some norm else none
        else none
      match two_res with
      | some norm => search_city gaz parts 2 norm norm
      | none =>
        if single_norm = "" then ("", "")
        else search_city gaz parts 1 single_norm single_norm

/-! ## `looks_like_address` (both variants) -/

/-- The forbidden-character list of `looks_like_address` in
`src/check/address.py` (no dollar sign). -/
def SPECIAL_CHARS_ADDRESS : List Char :=
  [Char.ofNat 96, ':', '%', '@', '*', Char.ofNat 94, Char.ofNat 91, Char.ofNat 93,
   Char.ofNat 123, Char.ofNat 125, '_', Char.ofNat 171, Char.ofNat 187]

/-- The forbidden-character list of `looks_like_address` in
`src/check/address_check.py` (includes the dollar sign, `Char.ofNat 36`). -/
def SPECIAL_CHARS_CHECK : List Char :=
  [Char.ofNat 96, ':', '%', Char.ofNat 36, '@', '*', Char.ofNat 94, Char.ofNat 91,
   Char.ofNat 93, Char.ofNat 123, Char.ofNat 125, '_', Char.ofNat 171, Char.ofNat 187]

/-- ASCII model of Python's word character class `\w` (letters, digits,
underscore). -/
def py_is_word_char (c : Char) : Bool := c.isAlphanum || c == '_'

/-- The body shared verbatim by the two `looks_like_address` implementations;
they differ only in the forbidden-character list passed here. -/
def looks_like_core (special_chars : List Char) (address : String) : Bool :=
  let addr := py_lower (py_strip address)
  let address_len := (py_strip addr).toList.filter py_is_word_char
  if address_len.length < 30 then false
  else if address_len.length > 300 then false
  else if (addr.toList.filter (fun c => py_is_word_char c && !c.isDigit)).length < 20 then false
  else if !(addr.toList.any Char.isAlpha) then false
  else if (addr.toList.dedup).length < 5 then false
  else
    let no_hyph := String.mk (addr.toList.filter (fun c => !(c == '-') && !(c == ';')))
    let sections := (py_split_comma no_hyph).map py_strip
    if (sections.filter (fun s => s.toList.any Char.isDigit)).length < 1 then false
    else if (addr.toList.filter (fun c => c == ',')).length < 2 then false
    else if special_chars.any (fun c => addr.toList.contains c) then false
    else true

/-- `looks_like_address` from `src/check/address.py`. -/
def looks_like_address (address : String) : Bool :=
  looks_like_core SPECIAL_CHARS_ADDRESS address

/-- `looks_like_address` from `src/check/address_check.py`. -/
def looks_like_address_chk (address : String) : Bool :=
  looks_like_core SPECIAL_CHARS_CHECK address

/-! ## `validate_address_region` -/

/-- The disputed-region seeds handled by literal substring match. -/
def OTHER_SPECIAL_REGIONS : List String := ["luhansk", "crimea", "donetsk"]

/-- `validate_address_region` from `src/check/address.py`.  In the final
matching step the source guards each equality with truthiness of both
sides (`gen_city and seed_address_lower and gen_city == ...`); in this
branch the extracted city/country and the lowercased seed are all
non-empty, so the guards are equivalent to the plain equalities used
here. -/
def validate_address_region (gaz : Gazetteer) (generated_address seed_address : String) : Bool :=
  if generated_address = "" ∨ seed_address = "" then false
  else
    let seed_lower := py_lower seed_address
    if seed_lower = "west sahara" ∨ seed_lower = "western sahara" then
      check_western_sahara_cities generated_address
    else if seed_lower ∈ OTHER_SPECIAL_REGIONS then
      py_in seed_lower (py_lower generated_address)
    else
      let p := extract_city_country gaz generated_address (py_in "," seed_address)
      let seed_mapped := dict_getD COUNTRY_MAPPING seed_lower seed_lower
      if p.1 = "" then false
      else if p.2 = "" then false
      else if p.1 = seed_lower ∨ p.2 = seed_lower ∨ p.2 = seed_mapped then true
      else false

/-! ## Bounding-box geometry and the multi-result scorer -/

/-- The single kind of exception the embedded code can raise uncaught:
Python's `ValueError` from `float(...)` / unpacking in
`compute_bounding_box_area_meters`. -/
inductive PyErr
  | valueError
deriving DecidableEq

/-- Digit-string value. -/
def digits_val (l : List Char) : Nat :=
  l.foldl (fun acc c => acc * 10 + (c.toNat - 48)) 0

/-- Model of Python `float(s)` restricted to the signed decimal numerals
(`[+-]? digits [. digits]`, at least one digit) that geocoder bounding
boxes contain; the exact rational value is returned.  Exponent, infinity
and NaN forms are not modelled, so this parser accepts a subset of what
`float` accepts. -/
def parse_py_float (s : String) : Option ℚ :=
  let t := strip_chars s.toList
  let sr : ℚ × List Char :=
    match t with
    | '-' :: r => (-1, r)
    | '+' :: r => (1, r)
    | r => (1, r)
  let ip := sr.2.takeWhile Char.isDigit
  let rest := sr.2.drop ip.length
  match rest with
  | [] => if ip.isEmpty then none else some (sr.1 * (digits_val ip : ℚ))
  | '.' :: fp =>
    if fp.all Char.isDigit ∧ (ip ≠ [] ∨ fp ≠ []) then
      some (sr.1 * ((digits_val ip : ℚ) + (digits_val fp : ℚ) / (10 : ℚ) ^ fp.length))
    else none
  | _ => none

/-- `south, north, west, east = map(float, boundingbox)`: exactly four
entries, each parseable as a decimal. -/
def parse_bbox (bb : List String) : Option (ℚ × ℚ × ℚ × ℚ) :=
  match bb with
  | [a, b, c, d] =>
    match parse_py_float a, parse_py_float b, parse_py_float c, parse_py_float d with
    | some s, some n, some w, some e => some (s, n, w, e)
    | _, _, _, _ => none
  | _ => none

/-- The numeric core of `compute_bounding_box_area_meters`: degree spans to
meters with 111000 m per degree latitude and `111000 * cos(radians(center
latitude))` m per degree longitude; area = width times height. -/
noncomputable def bbox_area_m2 (south north west east : ℝ) : ℝ :=
  let center_lat := (south + north) / 2
  let lat_m : ℝ := 111000
  let lon_m : ℝ := 111000 * Real.cos (center_lat * Real.pi / 180)
  let height_m := |north - south| * lat_m
  let width_m := |east - west| * lon_m
  width_m * height_m

/-- `compute_bounding_box_area_meters` from `src/check/address.py`: parse the
four bounds (raising `ValueError` on wrong element count or an
unparseable entry) and compute the planar area. -/
noncomputable def compute_bounding_box_area_meters (bb : List String) : Except PyErr ℝ :=
  match parse_bbox bb with
  | none => .error .valueError
  | some (s, n, w, e) => .ok (bbox_area_m2 (s : ℝ) (n : ℝ) (w : ℝ) (e : ℝ))

/-- One raw geocoder search result, with the fields the scorer reads
(`.get` defaults applied: missing `place_rank` is 0, missing `name` and
`display_name` are empty; `boundingbox` presence is the `'boundingbox' in
result` test). -/
structure QueryResult where
  place_rank : Int
  name : String
  display_name : String
  boundingbox : Option (List String)
deriving DecidableEq

/-- The per-result filter of `check_with_nominatim` (the loop body in
`src/check/address.py`, identical in `src/check/address_score.py`):
discard on place rank below 20; discard when a non-empty `name` is not a
substring of the query; discard when `display_name` is non-empty, the
query's digit-group set is non-empty, and the display name's digit-group
set differs from it. -/
def keep_result (address : String) (r : QueryResult) : Bool :=
  let original_numbers := py_findall_digits (py_lower address)
  if r.place_rank < 20 then false
  else if !(r.name == "") && !(py_in (py_lower r.name) (py_lower address)) then false
  else if !(r.display_name == "") && !(original_numbers.isEmpty) &&
      !(py_set_eq (py_findall_digits (py_lower r.display_name)) original_numbers) then false
  else true

/-- The area-summing loop of `check_with_nominatim`: every result (filtered
or not) that has a `boundingbox` contributes its area; a parse failure
propagates as the exception the source lets the `except` clause catch. -/
noncomputable def total_area_aux : List QueryResult → ℝ → Except PyErr ℝ
  | [], acc => .ok acc
  | r :: rest, acc =>
    match r.boundingbox with
    | none => total_area_aux rest acc
    | some bb =>
      match compute_bounding_box_area_meters bb with
      | .error e => .error e
      | .ok a => total_area_aux rest (acc + a)

/-- The area-to-score tiering shared by both `check_with_nominatim`
implementations (`scoreForArea` in the specification): strictly-less-than
boundaries at 100, 1000, 10000, 100000. -/
noncomputable def score_for_area (total_area : ℝ) : ℚ :=
  if total_area < 100 then 1
  else if total_area < 1000 then 9/10
  else if total_area < 10000 then 4/5
  else if total_area < 100000 then 7/10
  else 3/10

/-- The guarded body of `check_with_nominatim` from `src/check/address.py`,
given the decoded response: empty result list scores 0; empty filtered
list scores 0; otherwise the summed area of all (pre-filter) results is
tiered. -/
noncomputable def check_body (address : String) (results : List QueryResult) : Except PyErr ℚ :=
  if results.length = 0 then .ok 0
  else
    let filtered := results.filter (keep_result address)
    if filtered.length = 0 then .ok 0
    else
      match total_area_aux results 0 with
      | .error e => .error e
      | .ok t => .ok (score_for_area t)

/-- `check_with_nominatim` from `src/check/address.py`.  `response = none`
models the request or JSON decode raising inside the `try`; together with
any exception escaping the body it is caught by the blanket `except`,
which returns 0.0. -/
noncomputable def check_with_nominatim (address : String)
    (response : Option (List QueryResult)) : ℚ :=
  match response with
  | none => 0
  | some results =>
    match check_body address results with
    | .error _ => 0
    | .ok q => q

/-! ## `validate_nominatim_result` -/

/-- The single result object passed to `validate_nominatim_result`, with the
fields it reads (`.get` defaults applied; a missing or empty-list
`boundingbox` are both falsy, so both are modelled by `[]`; `country` is
`result.get('address', {}).get('country', '')`). -/
structure NominatimResult where
  boundingbox : List String
  display_name : String
  country : String

/-- The return contract of the top-level validator: the rejection value
`False`, or a numeric score. -/
inductive Verdict
  | reject
  | score (q : ℚ)
deriving DecidableEq

/-- A concrete verdict as the specification describes it: a rejection, or a
score within `[0, 1]`. -/
def valid_verdict : Verdict → Prop
  | .reject => True
  | .score q => 0 ≤ q ∧ q ≤ 1

/-- `validate_nominatim_result` from `src/check/address.py`.  The call to
`compute_bounding_box_area_meters` is not wrapped in any `try`, so its
`ValueError` escapes this function; every other step returns normally. -/
noncomputable def validate_nominatim_result (gaz : Gazetteer) (r : NominatimResult)
    (response : Option (List QueryResult)) : Except PyErr Verdict :=
  if r.boundingbox = [] ∨ r.display_name = "" ∨ r.country = "" then .ok .reject
  else
    match compute_bounding_box_area_meters r.boundingbox with
    | .error e => .error e
    | .ok area =>
      if area > 100 then .ok .reject
      else if !(looks_like_address r.display_name) then .ok .reject
      else if !(validate_address_region gaz r.display_name r.country) then .ok .reject
      else .ok (.score (check_with_nominatim r.display_name response))

/-- A small synthetic gazetteer used to instantiate the universally
quantified theorems at concrete inputs. -/
def test_gaz : Gazetteer :=
  { countries := [("de", "germany"), ("ye", "yemen")],
    cities := [{ countrycode := "de", name := "berlin" }] }

/-! ## Theorems -/

/-- C5: country alias normalization is idempotent and chain-free, for both
alias tables: a string that is not a key normalizes to itself; every key
normalizes to its mapped value; and every mapped value is not itself a
key, so re-normalizing it is a no-op. -/
theorem country_mapping_alias_idempotent :
    (∀ s : String, dict_get COUNTRY_MAPPING s = none → normalize_country s = s) ∧
    (∀ k v : String, (k, v) ∈ COUNTRY_MAPPING →
      normalize_country k = v ∧ normalize_country v = v) ∧
    (∀ s : String, dict_get COUNTRY_MAPPING_CHK s = none → normalize_country_chk s = s) ∧
    (∀ k v : String, (k, v) ∈ COUNTRY_MAPPING_CHK →
      normalize_country_chk k = v ∧ normalize_country_chk v = v) := by
  have h1 : COUNTRY_MAPPING.all
      (fun kv => (dict_get COUNTRY_MAPPING kv.1 == some kv.2) &&
        (dict_get COUNTRY_MAPPING kv.2 == none)) = true := by decide
  have h2 : COUNTRY_MAPPING_CHK.all
      (fun kv => (dict_get COUNTRY_MAPPING_CHK kv.1 == some kv.2) &&
        (dict_get COUNTRY_MAPPING_CHK kv.2 == none)) = true := by decide
  refine ⟨fun s hs => ?_, fun k v hkv => ?_, fun s hs => ?_, fun k v hkv => ?_⟩
  · simp [normalize_country, dict_getD, hs]
  · have hb := List.all_eq_true.mp h1 (k, v) hkv
    rw [Bool.and_eq_true, beq_iff_eq, beq_iff_eq] at hb
    exact ⟨by simp [normalize_country, dict_getD, hb.1],
           by simp [normalize_country, dict_getD, hb.2]⟩
  · simp [normalize_country_chk, dict_getD, hs]
  · have hb := List.all_eq_true.mp h2 (k, v) hkv
    rw [Bool.and_eq_true, beq_iff_eq, beq_iff_eq] at hb
    exact ⟨by simp [normalize_country_chk, dict_getD, hb.1],
           by simp [normalize_country_chk, dict_getD, hb.2]⟩

/-- Witness for C5 at concrete inputs: "france" is not a key and is fixed;
the alias key "burma" maps to "myanmar", which re-normalizes to itself. -/
theorem country_mapping_alias_idempotent_witness :
    dict_get COUNTRY_MAPPING "france" = none ∧
    normalize_country "france" = "france" ∧
    ("burma", "myanmar") ∈ COUNTRY_MAPPING ∧
    normalize_country "burma" = "myanmar" ∧
    normalize_country "myanmar" = "myanmar" :=
  ⟨by decide,
   country_mapping_alias_idempotent.1 "france" (by decide),
   by decide,
   (country_mapping_alias_idempotent.2.1 "burma" "myanmar" (by decide)).1,
   (country_mapping_alias_idempotent.2.1 "burma" "myanmar" (by decide)).2⟩

/-- C6: the area-to-score tiering is antitone: a strictly larger total area
never receives a strictly larger score. -/
theorem score_for_area_antitone (a1 a2 : ℝ) (h : a1 < a2) :
    score_for_area a1 ≥ score_for_area a2 := by
  unfold score_for_area
  split_ifs <;> (try norm_num) <;> linarith

/-- Witness for C6 at areas 50 and 200. -/
theorem score_for_area_antitone_witness :
    (50 : ℝ) < 200 ∧ score_for_area 50 ≥ score_for_area 200 :=
  ⟨by norm_num, score_for_area_antitone 50 200 (by norm_num)⟩

/-- C8: the bounding-box area is symmetric under swapping the south/north
pair and under swapping the west/east pair, for all real bounds. -/
theorem bbox_area_swap_symmetric (south north west east : ℝ) :
    bbox_area_m2 south north west east = bbox_area_m2 north south west east ∧
    bbox_area_m2 south north west east = bbox_area_m2 south north east west := by
  constructor
  · simp only [bbox_area_m2]
    rw [add_comm north south, abs_sub_comm south north]
  · simp only [bbox_area_m2]
    rw [abs_sub_comm west east]

/-- C9: `validate_address_region` rejects as soon as either argument is
empty, whatever the other argument (and the gazetteer) are. -/
theorem validate_address_region_empty_args_false (gaz : Gazetteer) (g s : String)
    (h : g = "" ∨ s = "") : validate_address_region gaz g s = false := by
  unfold validate_address_region
  rw [if_pos h]

/-- Witness for C9: the empty candidate with the disputed-region seed
"crimea" is rejected. -/
theorem validate_address_region_empty_args_false_witness :
    (("" : String) = "" ∨ ("crimea" : String) = "") ∧
    validate_address_region test_gaz "" "crimea" = false :=
  ⟨Or.inl rfl, validate_address_region_empty_args_false test_gaz "" "crimea" (Or.inl rfl)⟩

/-- C7: on "6 , Yemen" (two-segment flag off) the extractor returns an empty
city and the country "yemen", for every gazetteer: the only candidate
segment is "6", whose sole candidate word contains a digit and is skipped
before any gazetteer lookup. -/
theorem extract_city_country_yemen_example (gaz : Gazetteer) :
    extract_city_country gaz "6 , Yemen" false = ("", "yemen") := rfl

/-- C2 counterexample: a result whose display name has digit group "7" is
kept by the filter (and so survives into the scoring set) although the
query contains no digit group at all — the digit filter only fires when
the query's digit-group set is non-empty, so unequal digit-group sets do
not imply discarding. -/
theorem digit_filter_keeps_digitful_result_for_digitless_query :
    keep_result "main street alpha, beta town, gamma"
      { place_rank := 20, name := "", display_name := "7 main street",
        boundingbox := none } = true ∧
    [({ place_rank := 20, name := "", display_name := "7 main street",
        boundingbox := none } : QueryResult)].filter
      (keep_result "main street alpha, beta town, gamma") =
      [{ place_rank := 20, name := "", display_name := "7 main street",
         boundingbox := none }] ∧
    py_set_eq (py_findall_digits (py_lower "7 main street"))
      (py_findall_digits (py_lower "main street alpha, beta town, gamma")) = false := by
  exact ⟨by decide, by decide, by decide⟩

/-- C2 (amended): a result that passes the place-rank and name checks is
discarded exactly when its display name is non-empty, the query's
digit-group set is non-empty, and the display name's digit-group set
differs from the query's; in particular a digit-bearing result is kept
when the query has no digit groups. -/
theorem digit_filter_discard_characterization (address : String) (r : QueryResult)
    (hrank : ¬ r.place_rank < 20)
    (hname : r.name = "" ∨ py_in (py_lower r.name) (py_lower address) = true) :
    keep_result address r = false ↔
      (r.display_name ≠ "" ∧ py_findall_digits (py_lower address) ≠ [] ∧
       py_set_eq (py_findall_digits (py_lower r.display_name))
         (py_findall_digits (py_lower address)) = false) := by
  unfold keep_result
  rw [if_neg hrank]
  have hn : (!(r.name == "") && !(py_in (py_lower r.name) (py_lower address))) = false := by
    rcases hname with h | h
    · simp [h]
    · simp [h]
  simp only [hn, Bool.false_eq_true, if_false]
  rcases hC : (!(r.display_name == "") && !(py_findall_digits (py_lower address)).isEmpty &&
      !(py_set_eq (py_findall_digits (py_lower r.display_name))
        (py_findall_digits (py_lower address)))) with _ | _
  · simp only [hC, Bool.false_eq_true, if_false]
    simp only [Bool.and_eq_false_iff, Bool.not_eq_false', beq_iff_eq,
      List.isEmpty_iff, Bool.not_eq_false] at hC
    constructor
    · intro ht; exact absurd ht (by simp)
    · intro ⟨hd, ho, hs⟩
      rcases hC with (hC | hC) | hC
      · exact absurd hC hd
      · exact absurd hC ho
      · rw [hC] at hs; exact absurd hs (by simp)
  · simp only [hC, if_true]
    simp only [Bool.and_eq_true, Bool.not_eq_true', beq_eq_false_iff_ne,
      Bool.not_eq_true, List.isEmpty_eq_false] at hC
    obtain ⟨⟨hd, ho⟩, hs⟩ := hC
    exact ⟨fun _ => ⟨hd, by simpa using ho, hs⟩, fun _ => by trivial⟩

/-- Witness for C2 (amended) at a digit-bearing query and a mismatching
digit-bearing result, which is indeed discarded. -/
theorem digit_filter_discard_characterization_witness :
    (¬ ((20 : Int) < 20)) ∧
    (keep_result "1 x street, y, z"
        { place_rank := 20, name := "", display_name := "2 a road",
          boundingbox := none } = false ↔
      (("2 a road" : String) ≠ "" ∧ py_findall_digits (py_lower "1 x street, y, z") ≠ [] ∧
       py_set_eq (py_findall_digits (py_lower "2 a road"))
         (py_findall_digits (py_lower "1 x street, y, z")) = false)) :=
  ⟨by decide,
   digit_filter_discard_characterization "1 x street, y, z"
     { place_rank := 20, name := "", display_name := "2 a road", boundingbox := none }
     (by decide) (Or.inl rfl)⟩

/-- Every tier score lies in the unit interval. -/
theorem score_for_area_range (t : ℝ) :
    0 ≤ score_for_area t ∧ score_for_area t ≤ 1 := by
  unfold score_for_area
  split_ifs <;> norm_num

/-- A normally returned score of the guarded scorer body lies in `[0, 1]`. -/
theorem check_body_ok_range {address : String} {results : List QueryResult} {q : ℚ}
    (h : check_body address results = .ok q) : 0 ≤ q ∧ q ≤ 1 := by
  unfold check_body at h
  split at h
  · have : (0 : ℚ) = q := by injection h
    rw [← this]; norm_num
  · split at h
    · dsimp only at h
      split at h
      · rw [Except.ok.injEq] at h
        rw [← h]; norm_num
      · exact absurd h (by simp)
    · dsimp only at h
      split at h
      · rw [Except.ok.injEq] at h
        rw [← h]; norm_num
      · rw [Except.ok.injEq] at h
        rw [← h]; exact score_for_area_range _

/-- The multi-result scorer always returns a value in `[0, 1]`: a failed or
empty response scores 0, and every tier score is in the unit interval. -/
theorem check_with_nominatim_range (address : String) (resp : Option (List QueryResult)) :
    0 ≤ check_with_nominatim address resp ∧ check_with_nominatim address resp ≤ 1 := by
  cases resp with
  | none => simp [check_with_nominatim]
  | some results =>
    simp only [check_with_nominatim]
    cases h : check_body address results with
    | error e => norm_num
    | ok q => simpa using check_body_ok_range h

/-- The single-result object of the C1 counterexample: present but malformed
bounding box (three entries instead of four). -/
def bad_bbox_result : NominatimResult :=
  { boundingbox := ["1", "2", "3"], display_name := "x", country := "y" }

/-- C1 counterexample: on a result whose bounding box is present but has the
wrong element count, `validate_nominatim_result` propagates the
`ValueError` of `compute_bounding_box_area_meters` instead of returning a
verdict — the unpacking `south, north, west, east = map(float, ...)` at
`address.py:282` is reached outside any `try`. -/
theorem validate_raises_on_malformed_bbox :
    validate_nominatim_result test_gaz bad_bbox_result none = .error .valueError := rfl

/-- C1 (amended): whenever the bounding box, if present and non-empty,
consists of exactly four decimal-parseable entries, the top-level
validator terminates normally with a concrete verdict: the rejection
value or a score in `[0, 1]`.  (With a present but malformed bounding box
it instead raises `ValueError`, per the counterexample.) -/
theorem validate_terminates_on_parseable_bbox (gaz : Gazetteer) (r : NominatimResult)
    (resp : Option (List QueryResult))
    (hbb : r.boundingbox ≠ [] → (parse_bbox r.boundingbox).isSome = true) :
    ∃ v, validate_nominatim_result gaz r resp = .ok v ∧ valid_verdict v := by
  unfold validate_nominatim_result
  split
  · exact ⟨.reject, rfl, trivial⟩
  · rename_i hcond
    push_neg at hcond
    obtain ⟨quad, hq⟩ := Option.isSome_iff_exists.mp (hbb hcond.1)
    obtain ⟨qs, qn, qw, qe⟩ := quad
    unfold compute_bounding_box_area_meters
    rw [hq]
    dsimp only
    split
    · exact ⟨.reject, rfl, trivial⟩
    · split
      · exact ⟨.reject, rfl, trivial⟩
      · split
        · exact ⟨.reject, rfl, trivial⟩
        · exact ⟨.score (check_with_nominatim r.display_name resp), rfl,
            check_with_nominatim_range r.display_name resp⟩

/-- The well-formed single-result object instantiating C1's amended
theorem. -/
def ok_bbox_result : NominatimResult :=
  { boundingbox := ["0", "0", "0", "0"], display_name := "a", country := "b" }

/-- Witness for C1 (amended) at a concrete result with a parseable
bounding box. -/
theorem validate_terminates_on_parseable_bbox_witness :
    (ok_bbox_result.boundingbox ≠ [] → (parse_bbox ok_bbox_result.boundingbox).isSome = true) ∧
    ∃ v, validate_nominatim_result test_gaz ok_bbox_result none = .ok v ∧ valid_verdict v :=
  ⟨fun _ => by decide,
   validate_terminates_on_parseable_bbox test_gaz ok_bbox_result none (fun _ => by decide)⟩

/-- An association lookup either fixes its argument or returns the value of
some table entry. -/
theorem assoc_char_eq_self_or_mem (l : List (Char × Char)) (c : Char) :
    assoc_char l c = c ∨ ∃ p ∈ l, assoc_char l c = p.2 := by
  induction l with
  | nil => exact Or.inl rfl
  | cons p rest ih =>
    by_cases h : c = p.1
    · exact Or.inr ⟨p, List.mem_cons_self p rest, by simp [assoc_char, h]⟩
    · rcases ih with h' | ⟨q, hq, hq2⟩
      · exact Or.inl (by simp [assoc_char, h, h'])
      · exact Or.inr ⟨q, List.mem_cons_of_mem p hq, by simp [assoc_char, h, hq2]⟩

/-- Lowercasing never produces a dollar sign from another character. -/
theorem py_char_lower_ne_dollar {c : Char} (h : c ≠ Char.ofNat 36) :
    py_char_lower c ≠ Char.ofNat 36 := by
  unfold py_char_lower
  rcases assoc_char_eq_self_or_mem ASCII_UPPER_LOWER c with h' | ⟨p, hp, hp2⟩
  · rw [h']; exact h
  · rw [hp2]
    have hv : ∀ p ∈ ASCII_UPPER_LOWER, p.2 ≠ Char.ofNat 36 := by decide
    exact hv p hp

/-- Stripping only removes characters. -/
theorem strip_chars_sublist (l : List Char) : (strip_chars l).Sublist l := by
  unfold strip_chars
  have s1 : ((l.dropWhile is_py_ws).reverse.dropWhile is_py_ws).Sublist
      (l.dropWhile is_py_ws).reverse := List.dropWhile_sublist _
  have s2 : ((l.dropWhile is_py_ws).reverse.dropWhile is_py_ws).reverse.Sublist
      (l.dropWhile is_py_ws) := by
    simpa using s1.reverse
  exact s2.trans (List.dropWhile_sublist _)

/-- A string without a dollar sign still has none after strip and lower. -/
theorem no_dollar_processed {s : String} (h : s.toList.contains (Char.ofNat 36) = false) :
    (py_lower (py_strip s)).toList.contains (Char.ofNat 36) = false := by
  by_contra hc
  rw [Bool.not_eq_false] at hc
  have hcm' := List.elem_iff.mp hc
  simp only [py_lower, py_strip] at hcm'
  rcases List.mem_map.mp hcm' with ⟨c, hcm, hceq⟩
  by_cases hcd : c = Char.ofNat 36
  · rw [hcd] at hcm
    have hmem : Char.ofNat 36 ∈ s.toList := (strip_chars_sublist s.toList).subset hcm
    simp only [List.contains] at h
    simp at h
    exact h hmem
  · exact py_char_lower_ne_dollar hcd hceq

/-- C4: the two near-duplicate shape-filter implementations genuinely differ
— on a concrete address containing a dollar sign the `address.py` variant
accepts and the `address_check.py` variant rejects — and on every string
not containing a dollar sign they agree, since their bodies are identical
except that only the latter's forbidden-character list has the dollar
sign. -/
theorem looks_like_address_variants_differ_only_on_dollar :
    (looks_like_address
        "123 golden dollar street house, riverside market town, united kingdom$" = true ∧
     looks_like_address_chk
        "123 golden dollar street house, riverside market town, united kingdom$" = false) ∧
    (∀ s : String, s.toList.contains (Char.ofNat 36) = false →
      looks_like_address s = looks_like_address_chk s) := by
  constructor
  · exact ⟨by decide, by decide⟩
  · intro s h
    have hd := no_dollar_processed h
    simp only [looks_like_address, looks_like_address_chk, looks_like_core]
    have key : SPECIAL_CHARS_CHECK.any (fun c => (py_lower (py_strip s)).toList.contains c) =
        SPECIAL_CHARS_ADDRESS.any (fun c => (py_lower (py_strip s)).toList.contains c) := by
      simp only [SPECIAL_CHARS_CHECK, SPECIAL_CHARS_ADDRESS, List.any_cons, List.any_nil, hd]
      simp
    rw [key]

/-- Witness for C4's agreement half at a dollar-free string. -/
theorem looks_like_address_variants_differ_only_on_dollar_witness :
    ("abc, 12, def" : String).toList.contains (Char.ofNat 36) = false ∧
    looks_like_address "abc, 12, def" = looks_like_address_chk "abc, 12, def" :=
  ⟨by decide,
   looks_like_address_variants_differ_only_on_dollar.2 "abc, 12, def" (by decide)⟩

/-- C3: for a non-empty seed that is neither a Western Sahara variant nor a
disputed-region name, `validate_address_region` rejects whenever the
extractor yields an empty city or empty country, and otherwise accepts
exactly when the extracted city equals the lowercased seed, or the
extracted country equals the lowercased seed, or the extracted country
equals the alias-normalized lowercased seed. -/
theorem validate_address_region_nonspecial_spec (gaz : Gazetteer) (g s : String)
    (hs : s ≠ "")
    (h1 : py_lower s ≠ "west sahara")
    (h2 : py_lower s ≠ "western sahara")
    (h3 : py_lower s ∉ OTHER_SPECIAL_REGIONS) :
    (((extract_city_country gaz g (py_in "," s)).1 = "" ∨
       (extract_city_country gaz g (py_in "," s)).2 = "") →
      validate_address_region gaz g s = false) ∧
    ((extract_city_country gaz g (py_in "," s)).1 ≠ "" →
     (extract_city_country gaz g (py_in "," s)).2 ≠ "" →
      (validate_address_region gaz g s = true ↔
        ((extract_city_country gaz g (py_in "," s)).1 = py_lower s ∨
         (extract_city_country gaz g (py_in "," s)).2 = py_lower s ∨
         (extract_city_country gaz g (py_in "," s)).2 =
           dict_getD COUNTRY_MAPPING (py_lower s) (py_lower s)))) := by
  by_cases hg : g = ""
  · constructor
    · intro _
      unfold validate_address_region
      rw [if_pos (Or.inl hg)]
    · intro hc _
      rw [hg] at hc
      exact absurd rfl hc
  · simp only [validate_address_region]
    rw [if_neg (not_or.mpr ⟨hg, hs⟩), if_neg (not_or.mpr ⟨h1, h2⟩), if_neg h3]
    constructor
    · intro hco
      rcases hco with hc | hco
      · rw [if_pos hc]
      · by_cases hc : (extract_city_country gaz g (py_in "," s)).1 = ""
        · rw [if_pos hc]
        · rw [if_neg hc, if_pos hco]
    · intro hc hco
      rw [if_neg hc, if_neg hco]
      constructor
      · intro ht
        by_cases hm : ((extract_city_country gaz g (py_in "," s)).1 = py_lower s ∨
            (extract_city_country gaz g (py_in "," s)).2 = py_lower s ∨
            (extract_city_country gaz g (py_in "," s)).2 =
              dict_getD COUNTRY_MAPPING (py_lower s) (py_lower s))
        · exact hm
        · rw [if_neg hm] at ht
          exact absurd ht (by simp)
      · intro hm
        rw [if_pos hm]

/-- Witness for C3 at a concrete gazetteer, candidate and seed. -/
theorem validate_address_region_nonspecial_spec_witness :
    ("germany" : String) ≠ "" ∧
    py_lower "germany" ≠ "west sahara" ∧
    py_lower "germany" ≠ "western sahara" ∧
    py_lower "germany" ∉ OTHER_SPECIAL_REGIONS ∧
    ((((extract_city_country test_gaz "main road 5, berlin, germany"
          (py_in "," "germany")).1 = "" ∨
       (extract_city_country test_gaz "main road 5, berlin, germany"
          (py_in "," "germany")).2 = "") →
      validate_address_region test_gaz "main road 5, berlin, germany" "germany" = false) ∧
     ((extract_city_country test_gaz "main road 5, berlin, germany"
          (py_in "," "germany")).1 ≠ "" →
      (extract_city_country test_gaz "main road 5, berlin, germany"
          (py_in "," "germany")).2 ≠ "" →
       (validate_address_region test_gaz "main road 5, berlin, germany" "germany" = true ↔
         ((extract_city_country test_gaz "main road 5, berlin, germany"
             (py_in "," "germany")).1 = py_lower "germany" ∨
          (extract_city_country test_gaz "main road 5, berlin, germany"
             (py_in "," "germany")).2 = py_lower "germany" ∨
          (extract_city_country test_gaz "main road 5, berlin, germany"
             (py_in "," "germany")).2 =
            dict_getD COUNTRY_MAPPING (py_lower "germany") (py_lower "germany"))))) :=
  ⟨by decide, by decide, by decide, by decide,
   validate_address_region_nonspecial_spec test_gaz "main road 5, berlin, germany" "germany"
     (by decide) (by decide) (by decide) (by decide)⟩

/-- Every generated city candidate is a single word of some comma segment,
or two adjacent words of one segment joined by a single space. -/
theorem mem_candidate_list {parts : List String} {excl : Nat} {c : String}
    (h : c ∈ candidate_list parts excl) :
    ∃ seg ∈ parts,
      (c ∈ py_split_ws seg ∨
       ∃ i : Nat, i + 1 < (py_split_ws seg).length ∧
         c = (py_split_ws seg).getD i "" ++ " " ++ (py_split_ws seg).getD (i + 1) "") := by
  unfold candidate_list at h
  rcases List.mem_flatMap.mp h with ⟨i, hi, hc⟩
  obtain ⟨hi1, hi2⟩ := List.mem_range'_1.mp hi
  have hlt : parts.length - i < parts.length := by omega
  refine ⟨parts.getD (parts.length - i) "", ?_, ?_⟩
  · rw [List.getD_eq_getElem parts "" hlt]
    exact List.getElem_mem hlt
  · unfold city_candidates_of_part at hc
    by_cases hempty : parts.getD (parts.length - i) "" = ""
    · rw [if_pos hempty] at hc
      exact absurd hc (List.not_mem_nil c)
    · rw [if_neg hempty] at hc
      rcases List.mem_flatMap.mp hc with ⟨nw, hnw, hcc⟩
      have hnwlt := List.mem_range.mp hnw
      rcases List.mem_cons.mp hcc with hceq | hrest
      · left
        rw [hceq, List.getD_eq_getElem _ "" hnwlt]
        exact List.getElem_mem hnwlt
      · by_cases hz : 0 < nw
        · rw [if_pos hz] at hrest
          rcases List.mem_singleton.mp hrest with hceq
          right
          refine ⟨nw - 1, by omega, ?_⟩
          have hrw : nw - 1 + 1 = nw := by omega
          rw [hrw, hceq]
        · rw [if_neg hz] at hrest
          exact absurd hrest (List.not_mem_nil c)

/-- When the inner search of `extract_city_country` returns a non-empty
city, that city is a digit-free member of the candidate list. -/
theorem search_city_found {gaz : Gazetteer} {parts : List String} {excl : Nat}
    {cn norm : String} (h : (search_city gaz parts excl cn norm).1 ≠ "") :
    (search_city gaz parts excl cn norm).1.toList.any Char.isDigit = false ∧
    (search_city gaz parts excl cn norm).1 ∈ candidate_list parts excl := by
  unfold search_city at h ⊢
  rcases hf : (candidate_list parts excl).find?
      (fun c => !(c.toList.any Char.isDigit) && city_in_country gaz c cn) with _ | city
  · rw [hf] at h
    exact absurd rfl h
  · rw [hf]
    have hp := List.find?_some hf
    rw [Bool.and_eq_true, Bool.not_eq_true'] at hp
    exact ⟨hp.1, List.mem_of_find?_eq_some hf⟩

/-- `extract_city_country` either returns an empty city or returns the
result of the inner search over the trimmed comma segments of the
lowercased address. -/
theorem extract_city_country_shape (gaz : Gazetteer) (address : String) (two_parts : Bool) :
    (extract_city_country gaz address two_parts).1 = "" ∨
    ∃ excl cn norm, extract_city_country gaz address two_parts =
      search_city gaz ((py_split_comma (py_lower address)).map py_strip) excl cn norm := by
  unfold extract_city_country
  split
  · exact Or.inl rfl
  · dsimp only
    split
    · exact Or.inl rfl
    · split
      · rename_i norm _
        exact Or.inr ⟨2, norm, norm, rfl⟩
      · split
        · exact Or.inl rfl
        · exact Or.inr ⟨1, _, _, rfl⟩

/-- C10: whenever the extractor returns a non-empty city, that city contains
no ASCII digit, and it is a single whitespace-separated word of one
(trimmed) comma segment of the lowercased address, or two adjacent words
of such a segment joined by a single space. -/
theorem extract_city_country_city_shape (gaz : Gazetteer) (address : String)
    (two_parts : Bool) (h : (extract_city_country gaz address two_parts).1 ≠ "") :
    (extract_city_country gaz address two_parts).1.toList.any Char.isDigit = false ∧
    ∃ seg ∈ (py_split_comma (py_lower address)).map py_strip,
      ((extract_city_country gaz address two_parts).1 ∈ py_split_ws seg ∨
       ∃ i : Nat, i + 1 < (py_split_ws seg).length ∧
         (extract_city_country gaz address two_parts).1 =
           (py_split_ws seg).getD i "" ++ " " ++ (py_split_ws seg).getD (i + 1) "") := by
  rcases extract_city_country_shape gaz address two_parts with h0 | ⟨excl, cn, norm, heq⟩
  · exact absurd h0 h
  · rw [heq] at h ⊢
    obtain ⟨hdig, hmem⟩ := search_city_found h
    exact ⟨hdig, mem_candidate_list hmem⟩

/-- Witness for C10 at a concrete gazetteer and address whose extracted city
is "berlin". -/
theorem extract_city_country_city_shape_witness :
    (extract_city_country test_gaz "x 1, berlin, germany" false).1 ≠ "" ∧
    ((extract_city_country test_gaz "x 1, berlin, germany" false).1.toList.any
        Char.isDigit = false ∧
     ∃ seg ∈ (py_split_comma (py_lower "x 1, berlin, germany")).map py_strip,
       ((extract_city_country test_gaz "x 1, berlin, germany" false).1 ∈ py_split_ws seg ∨
        ∃ i : Nat, i + 1 < (py_split_ws seg).length ∧
          (extract_city_country test_gaz "x 1, berlin, germany" false).1 =
            (py_split_ws seg).getD i "" ++ " " ++ (py_split_ws seg).getD (i + 1) "")) :=
  ⟨by decide,
   extract_city_country_city_shape test_gaz "x 1, berlin, germany" false (by decide)⟩
